import Mathlib

/-!
Shallow embedding of `src/LightDetectionManager.cpp` (class `ALightDetectionManager`
of the LightDetectionManager repository) together with theorems about its per-tick
light-exposure evaluation pipeline.

Conventions of the embedding:
* Engine floats are modelled as real numbers (`ℝ`); division is Lean's total
  division (`x / 0 = 0`).
* The host engine's vector primitives (`FVector` arithmetic, `DotProduct`,
  `CrossProduct`, `Size`, `Distance`, `DistSquared`, `GetSafeNormal`,
  `Normalize`, `RotateAngleAxis`, `FMath::Acos`, `FPlane::PointPlaneDist`) are
  modelled as the pure geometry kernel of the specification (§4.2); in
  particular `Real.arccos` clamps its argument exactly as `FMath::Acos` does,
  and normalising the zero vector yields the zero vector, as the engine's
  `GetSafeNormal` does.
* The host's `LineTraceSingleByChannel` ray-cast service is an explicit
  function parameter of type `RayCast`; `some hit` models a blocking hit,
  `none` models an unobstructed ray.
* Member mutation of `IlluminanceTotal` is threaded as an explicit running
  total; an evaluation that dereferences a null handle is modelled by an
  `Option` result (`none` = the tick crashes, no state survives).
-/

noncomputable section

/-- World-space vector, modelling `FVector` (and the positional part of the
`FVector4` returned by `GetLightPosition`). -/
structure Vec3 where
  x : ℝ
  y : ℝ
  z : ℝ

def Vec3.add (a b : Vec3) : Vec3 := ⟨a.x + b.x, a.y + b.y, a.z + b.z⟩

instance : Add Vec3 := ⟨Vec3.add⟩

def Vec3.sub (a b : Vec3) : Vec3 := ⟨a.x - b.x, a.y - b.y, a.z - b.z⟩

instance : Sub Vec3 := ⟨Vec3.sub⟩

def Vec3.neg (a : Vec3) : Vec3 := ⟨-a.x, -a.y, -a.z⟩

instance : Neg Vec3 := ⟨Vec3.neg⟩

def Vec3.smul (r : ℝ) (a : Vec3) : Vec3 := ⟨r * a.x, r * a.y, r * a.z⟩

instance : SMul ℝ Vec3 := ⟨Vec3.smul⟩

@[simp] theorem Vec3.add_x (a b : Vec3) : (a + b).x = a.x + b.x := rfl

@[simp] theorem Vec3.add_y (a b : Vec3) : (a + b).y = a.y + b.y := rfl

@[simp] theorem Vec3.add_z (a b : Vec3) : (a + b).z = a.z + b.z := rfl

@[simp] theorem Vec3.sub_x (a b : Vec3) : (a - b).x = a.x - b.x := rfl

@[simp] theorem Vec3.sub_y (a b : Vec3) : (a - b).y = a.y - b.y := rfl

@[simp] theorem Vec3.sub_z (a b : Vec3) : (a - b).z = a.z - b.z := rfl

@[simp] theorem Vec3.smul_x (r : ℝ) (a : Vec3) : (r • a).x = r * a.x := rfl

@[simp] theorem Vec3.smul_y (r : ℝ) (a : Vec3) : (r • a).y = r * a.y := rfl

@[simp] theorem Vec3.smul_z (r : ℝ) (a : Vec3) : (r • a).z = r * a.z := rfl

theorem Vec3.ext_comp (a b : Vec3) (hx : a.x = b.x) (hy : a.y = b.y)
    (hz : a.z = b.z) : a = b := by
  cases a; cases b; simp_all

theorem Vec3.sub_self (a : Vec3) : a - a = (⟨0, 0, 0⟩ : Vec3) := by
  apply Vec3.ext_comp <;> simp

/-- `FVector::UpVector` = (0, 0, 1). -/
def upVector : Vec3 := ⟨0, 0, 1⟩

/-- `FVector::DownVector` = (0, 0, -1). -/
def downVector : Vec3 := ⟨0, 0, -1⟩

/-- `FVector::DotProduct`. -/
def dot (a b : Vec3) : ℝ := a.x * b.x + a.y * b.y + a.z * b.z

/-- `FVector::CrossProduct`. -/
def cross (a b : Vec3) : Vec3 :=
  ⟨a.y * b.z - a.z * b.y, a.z * b.x - a.x * b.z, a.x * b.y - a.y * b.x⟩

/-- `FVector::DistSquared(a, b)` — squared euclidean distance. -/
def distSquared (a b : Vec3) : ℝ :=
  (b.x - a.x) * (b.x - a.x) + (b.y - a.y) * (b.y - a.y) + (b.z - a.z) * (b.z - a.z)

/-- `FVector::Size()` — euclidean length. -/
def size (v : Vec3) : ℝ := Real.sqrt (dot v v)

/-- `FVector::Distance(a, b) = (b - a).Size()`. -/
def distance (a b : Vec3) : ℝ := size (b - a)

/-- The specification's `safeNormal` (§4.2), modelling the engine's
`GetSafeNormal` / `Normalize`: `v / |v|`.  With Lean's total division the zero
vector is mapped to the zero vector, exactly as `GetSafeNormal` returns
`ZeroVector` for degenerate input. -/
def safeNormal (v : Vec3) : Vec3 := (1 / size v) • v

/-- Collision channels used by the source: `ECC_GameTraceChannel5` (the custom
floor / shadow channel) and `ECC_Visibility`. -/
inductive Channel where
  | gameTrace5 : Channel
  | visibility : Channel

/-- Result of a blocking line trace (`FHitResult`); only the hit location is
consumed by the source. -/
structure Hit where
  location : Vec3

/-- The host's `GetWorld()->LineTraceSingleByChannel(out, origin, target, channel)`
service: `some hit` means the trace found a blocking hit, `none` means the ray
is clear. -/
abbrev RayCast := Vec3 → Vec3 → Channel → Option Hit

/-- Cached data of a `UPointLightComponent` consumed by `CheckPointLights`:
`GetLightPosition`, `AttenuationRadius`, `Intensity`, `IsVisible()`. -/
structure PointLightC where
  position : Vec3
  attenuationRadius : ℝ
  intensity : ℝ
  visible : Bool

/-- Cached data of a `USpotLightComponent` consumed by `CheckSpotLights`:
`GetLightPosition`, `GetForwardVector`, `OuterConeAngle` (degrees),
`AttenuationRadius`, `Intensity`, `IsVisible()`. -/
structure SpotLightC where
  position : Vec3
  forward : Vec3
  outerConeAngle : ℝ
  attenuationRadius : ℝ
  intensity : ℝ
  visible : Bool

/-- Cached data of a `URectLightComponent` (through `RectLightWrapper`)
consumed by `CheckRectLights` and the frustum/plane builders. -/
structure RectLightC where
  position : Vec3
  forward : Vec3
  right : Vec3
  up : Vec3
  sourceWidth : ℝ
  sourceHeight : ℝ
  barnDoorLength : ℝ
  barnDoorAngle : ℝ
  attenuationRadius : ℝ
  intensity : ℝ
  visible : Bool

/-- Cached data of the main `UDirectionalLightComponent` consumed by
`CheckDirectionalLight`. -/
structure DirectionalLightC where
  forward : Vec3
  intensity : ℝ
  visible : Bool

/-- `FPlane` as stored in `RectLightWrapper::BoundingPlanes`: a normal and the
plane constant `W`; `GetNormal()` returns the normal. -/
structure PlaneE where
  normal : Vec3
  d : ℝ

/-- `FPlane::Flip()` — negates normal and plane constant. -/
def PlaneE.flip (p : PlaneE) : PlaneE := ⟨-p.normal, -p.d⟩

/-- `FPlane::PointPlaneDist(point, planeBase, planeNormal)` — signed distance
`dot(point - planeBase, planeNormal)`. -/
def pointPlaneDist (point planeBase planeNormal : Vec3) : ℝ :=
  dot (point - planeBase) planeNormal

/-- `FVector::RotateAngleAxis(angleDeg, axis)` — Rodrigues rotation of the
vector about the (unit) axis by `angleDeg` degrees, modelling the engine
primitive used at line 342 of the source. -/
def rotateAngleAxis (v : Vec3) (angleDeg : ℝ) (axis : Vec3) : Vec3 :=
  Real.cos (angleDeg * (Real.pi / 180)) • v +
    Real.sin (angleDeg * (Real.pi / 180)) • cross axis v +
    ((1 - Real.cos (angleDeg * (Real.pi / 180))) * dot axis v) • axis

/-- The 8 cached frustum corners of a rect light
(`RectLightWrapper::FrustumPoints`, indices 0-7). -/
structure RectFrustum where
  p0 : Vec3
  p1 : Vec3
  p2 : Vec3
  p3 : Vec3
  p4 : Vec3
  p5 : Vec3
  p6 : Vec3
  p7 : Vec3

/-- The 4 cached bounding planes of a rect light
(`RectLightWrapper::BoundingPlanes`: top, right, bottom, left). -/
structure BoundingPlanes where
  top : PlaneE
  right : PlaneE
  bottom : PlaneE
  left : PlaneE

/-- `ALightDetectionManager::CalculateFrustumPoints`, lines 327-354: the near
rectangle from the light basis and source extents, then the far rectangle by
rotating the forward barn-door segment by `-BarnDoorAngle` about the right
axis and flaring it by `BarnDoorLength * sin(BarnDoorAngle * π/180)`. -/
def calculateFrustumPoints (l : RectLightC) : RectFrustum :=
  let p0 := l.position - (l.sourceWidth / 2) • l.right + (l.sourceHeight / 2) • l.up
  let p1 := l.position + (l.sourceWidth / 2) • l.right + (l.sourceHeight / 2) • l.up
  let p2 := l.position + (l.sourceWidth / 2) • l.right - (l.sourceHeight / 2) • l.up
  let p3 := l.position - (l.sourceWidth / 2) • l.right - (l.sourceHeight / 2) • l.up
  let farPlaneSegment :=
    p0 + rotateAngleAxis (l.barnDoorLength • l.forward) (-l.barnDoorAngle) l.right
  let farPlaneSegmentLength := l.barnDoorLength * Real.sin (l.barnDoorAngle * (Real.pi / 180))
  let p4 := farPlaneSegment - farPlaneSegmentLength • l.right
  let p5 := p4 + (2 * farPlaneSegmentLength + l.sourceWidth) • l.right
  let p6 := p5 - (2 * farPlaneSegmentLength + l.sourceHeight) • l.up
  let p7 := p6 - (2 * farPlaneSegmentLength + l.sourceWidth) • l.right
  ⟨p0, p1, p2, p3, p4, p5, p6, p7⟩

/-- `ALightDetectionManager::CalculateBoundingPlanes`, lines 356-377: each
plane normal is a normalized cross product of two frustum edges and the plane
is built through a frustum corner, then flipped so the normal faces inward. -/
def calculateBoundingPlanes (f : RectFrustum) : BoundingPlanes :=
  let topN := safeNormal (cross (f.p3 - f.p2) (f.p4 - f.p2))
  let rightN := safeNormal (cross (f.p0 - f.p3) (f.p5 - f.p3))
  let bottomN := safeNormal (cross (f.p7 - f.p1) (f.p0 - f.p1))
  let leftN := safeNormal (cross (f.p4 - f.p2) (f.p1 - f.p2))
  { top := PlaneE.flip ⟨topN, dot topN f.p2⟩
    right := PlaneE.flip ⟨rightN, dot rightN f.p0⟩
    bottom := PlaneE.flip ⟨bottomN, dot bottomN f.p0⟩
    left := PlaneE.flip ⟨leftN, dot leftN f.p1⟩ }

/-- `TopPlaneDist` of line 259: signed distance of the test point to the top
bounding plane, anchored at `FrustumPoints[3]`. -/
def topPlaneDist (l : RectLightC) (p : Vec3) : ℝ :=
  pointPlaneDist p (calculateFrustumPoints l).p3
    (calculateBoundingPlanes (calculateFrustumPoints l)).top.normal

/-- `RightPlaneDist` of line 260, anchored at `FrustumPoints[0]`. -/
def rightPlaneDist (l : RectLightC) (p : Vec3) : ℝ :=
  pointPlaneDist p (calculateFrustumPoints l).p0
    (calculateBoundingPlanes (calculateFrustumPoints l)).right.normal

/-- `BottomPlaneDist` of line 261, anchored at `FrustumPoints[0]`. -/
def bottomPlaneDist (l : RectLightC) (p : Vec3) : ℝ :=
  pointPlaneDist p (calculateFrustumPoints l).p0
    (calculateBoundingPlanes (calculateFrustumPoints l)).bottom.normal

/-- `LeftPlaneDist` of line 262, anchored at `FrustumPoints[1]`. -/
def leftPlaneDist (l : RectLightC) (p : Vec3) : ℝ :=
  pointPlaneDist p (calculateFrustumPoints l).p1
    (calculateBoundingPlanes (calculateFrustumPoints l)).left.normal

/-- The conjunction tested at line 264 of the source: the test point lies
strictly in front of all four inward bounding planes. -/
abbrev rectAllFourPos (l : RectLightC) (p : Vec3) : Prop :=
  topPlaneDist l p > 0 ∧ rightPlaneDist l p > 0 ∧
    bottomPlaneDist l p > 0 ∧ leftPlaneDist l p > 0

/-- `ALightDetectionManager::CheckPointLights`, lines 111-151, threading the
member `IlluminanceTotal` as the running total.  Note that an invisible or
non-positive-intensity light executes `return` (line 122), abandoning the whole
pass, and that an included light executes the assignment
`IlluminanceTotal = 1.0f` (line 144), not an addition.  No occlusion ray is
cast for point lights. -/
def checkPointLightsAux (buffer : ℝ) (playerPosition : Vec3) :
    List PointLightC → ℝ → ℝ
  | [], total => total
  | l :: rest, total =>
    if l.visible = false ∨ l.intensity ≤ 0 then
      total
    else if distSquared l.position playerPosition >
        l.attenuationRadius * l.attenuationRadius + buffer then
      checkPointLightsAux buffer playerPosition rest total
    else
      checkPointLightsAux buffer playerPosition rest 1

/-- `ALightDetectionManager::CheckSpotLights`, lines 153-223, threading
`IlluminanceTotal` as the running total.  An invisible light is skipped with
`continue`; the cone-reach test, the bearing test, the occlusion trace on
`ECC_GameTraceChannel5` and the intensity test each skip the light; an
included light executes the assignment `IlluminanceTotal = 1.0f` (line 203). -/
def checkSpotLightsAux (buffer : ℝ) (playerPosition : Vec3) (trace : RayCast) :
    List SpotLightC → ℝ → ℝ
  | [], total => total
  | l :: rest, total =>
    if l.visible = false then
      checkSpotLightsAux buffer playerPosition trace rest total
    else
      let playerDisplacement := playerPosition - l.position
      let lightDistanceSqr := distSquared l.position playerPosition
      let angleBetween :=
        Real.arccos (dot playerDisplacement l.forward / size playerDisplacement)
      let coneHeight := l.attenuationRadius *
        (Real.cos (l.outerConeAngle * (Real.pi / 180)) / Real.cos angleBetween)
      if lightDistanceSqr > coneHeight * coneHeight + buffer then
        checkSpotLightsAux buffer playerPosition trace rest total
      else
        let spotLightToPlayerAngle :=
          Real.arccos (dot l.forward (safeNormal playerDisplacement)) * (180 / Real.pi)
        if spotLightToPlayerAngle > l.outerConeAngle then
          checkSpotLightsAux buffer playerPosition trace rest total
        else if (trace l.position playerPosition Channel.gameTrace5).isSome then
          checkSpotLightsAux buffer playerPosition trace rest total
        else if l.intensity ≤ 0 then
          checkSpotLightsAux buffer playerPosition trace rest total
        else
          checkSpotLightsAux buffer playerPosition trace rest 1

/-- `ALightDetectionManager::CheckRectLights`, lines 225-290, threading
`IlluminanceTotal`.  The source recomputes the frustum points and bounding
planes unconditionally (`if (true)`, line 252) before the plane test, so the
plane distances are always taken against freshly computed caches; the test
point is the player's actor location.  An invisible light executes `return`;
an included light adds `Intensity / (2π · (sqrt(d²) · 0.01))` (line 267). -/
def checkRectLightsAux (buffer : ℝ) (playerPosition : Vec3) (trace : RayCast) :
    List RectLightC → ℝ → ℝ
  | [], total => total
  | l :: rest, total =>
    if l.visible = false then
      total
    else if distSquared l.position playerPosition >
        l.attenuationRadius * l.attenuationRadius + buffer then
      checkRectLightsAux buffer playerPosition trace rest total
    else if (trace l.position playerPosition Channel.gameTrace5).isSome then
      checkRectLightsAux buffer playerPosition trace rest total
    else if rectAllFourPos l playerPosition then
      checkRectLightsAux buffer playerPosition trace rest
        (total + l.intensity /
          (2 * Real.pi * (Real.sqrt (distSquared l.position playerPosition) * 0.01)))
    else
      checkRectLightsAux buffer playerPosition trace rest total

/-- `ALightDetectionManager::CheckDirectionalLight`, lines 292-325: skip when
the main light is absent or invisible; build the probe origin
`PlayerPosition - LightDirection * 5000`; trace on `ECC_Visibility`; when the
ray is clear, `IlluminanceTotal += Intensity` (line 317). -/
def checkDirectionalLight (mainDirectionalLight : Option DirectionalLightC)
    (playerPosition : Vec3) (trace : RayCast) (total : ℝ) : ℝ :=
  match mainDirectionalLight with
  | none => total
  | some l =>
    if l.visible = false then
      total
    else if (trace (playerPosition - (5000 : ℝ) • l.forward) playerPosition
        Channel.visibility).isSome then
      total
    else
      total + l.intensity

/-- The sampling-point resolution inside `UpdateDetection`, lines 76-95.
`DetectionPoint` is declared without an initializer (line 76); the parameter
`g` models its indeterminate initial contents.  The floor probe goes 100 units
down on `ECC_GameTraceChannel5`.  If the probe hits and the hit is closer than
98 units, the point is `hit + 10 * up`; if the probe misses entirely, the
point is `player + 93.980003 * down`; if the probe hits at distance ≥ 98 the
source assigns nothing and the indeterminate `g` is used. -/
def resolveDetectionPoint (g : Vec3) (playerPosition : Vec3) (trace : RayCast) : Vec3 :=
  match trace playerPosition (playerPosition + (100 : ℝ) • downVector)
      Channel.gameTrace5 with
  | some hit =>
    if distance hit.location playerPosition < 98 then
      hit.location + (10 : ℝ) • upVector
    else
      g
  | none => playerPosition + (93.980003 : ℝ) • downVector

/-- A scene actor as seen by the `TActorIterator` loop of `BeginPlay`: its tag
list and its (optional) point / spot light components. -/
structure SceneActor where
  tags : List String
  pointComponent : Option PointLightC
  spotComponent : Option SpotLightC

def pointLightTag : String := "Point Light"

def spotLightTag : String := "Spot Light"

/-- The classification loop of `BeginPlay`, lines 35-58: actors tagged
"Point Light" with a point light component join `PointLights`; otherwise
actors tagged "Spot Light" with a spot light component join `SpotLights`;
catalog order is scene iteration order. -/
def classifyActors : List SceneActor → List PointLightC × List SpotLightC
  | [] => ([], [])
  | a :: rest =>
    let acc := classifyActors rest
    if a.tags.contains pointLightTag then
      match a.pointComponent with
      | some pc => (pc :: acc.1, acc.2)
      | none => acc
    else if a.tags.contains spotLightTag then
      match a.spotComponent with
      | some sc => (acc.1, sc :: acc.2)
      | none => acc
    else
      acc

/-- The mutable state of `ALightDetectionManager` relevant to the evaluation
pipeline: the borrowed subject handle (`Player`, null modelled as `none`), the
light catalogs, `IlluminanceTotal`, `UpdateFrequency`, `UpdateTimer` and
`ForgivenessBuffer`. -/
structure ManagerState where
  player : Option Vec3
  pointLights : List PointLightC
  spotLights : List SpotLightC
  illuminanceTotal : ℝ
  updateFrequency : ℝ
  updateTimer : ℝ
  forgivenessBuffer : ℝ

/-- `ALightDetectionManager::BeginPlay`, lines 27-62: store the player handle,
classify tagged scene actors into the catalogs, and set
`UpdateTimer = 1 / UpdateFrequency` (line 61).  The source performs no
validation of `UpdateFrequency` whatsoever and has no failure path. -/
def beginPlay (player : Option Vec3) (actors : List SceneActor)
    (updateFrequency forgivenessBuffer : ℝ) : ManagerState :=
  let catalogs := classifyActors actors
  { player := player
    pointLights := catalogs.1
    spotLights := catalogs.2
    illuminanceTotal := 0
    updateFrequency := updateFrequency
    updateTimer := 1 / updateFrequency
    forgivenessBuffer := forgivenessBuffer }

/-- `ALightDetectionManager::UpdateDetection`, lines 70-109: zero
`IlluminanceTotal`, read `Player->GetActorLocation()` (line 75 — an unguarded
dereference: with a null player the tick crashes, modelled as `none`; the
zeroing at line 73 is unobservable because the crash aborts the tick), resolve
the detection point, then run the point and spot passes.  The rect and
directional evaluators are commented out at lines 100-101 and are never
invoked. -/
def updateDetection (g : Vec3) (trace : RayCast) (st : ManagerState) :
    Option ManagerState :=
  match st.player with
  | none => none
  | some playerPosition =>
    let detectionPoint := resolveDetectionPoint g playerPosition trace
    let afterPoint :=
      checkPointLightsAux st.forgivenessBuffer detectionPoint st.pointLights 0
    let afterSpot :=
      checkSpotLightsAux st.forgivenessBuffer detectionPoint trace st.spotLights afterPoint
    some { st with illuminanceTotal := afterSpot }

/-- `ALightDetectionManager::Tick`, lines 385-398: decrement `UpdateTimer` by
the frame's delta time; when it reaches ≤ 0, invoke `UpdateDetection` and
reset the timer to `1 / UpdateFrequency`.  The second component of the result
counts the evaluations invoked this frame (0 or 1). -/
def tick (g : Vec3) (trace : RayCast) (dt : ℝ) (st : ManagerState) :
    Option (ManagerState × ℕ) :=
  let st1 := { st with updateTimer := st.updateTimer - dt }
  if st1.updateTimer ≤ 0 then
    match updateDetection g trace st1 with
    | none => none
    | some st2 => some ({ st2 with updateTimer := 1 / st2.updateFrequency }, 1)
  else
    some (st1, 0)

/-! Concrete fixtures used by the witnesses and counterexamples. -/

/-- A ray-cast service that never reports a blocking hit. -/
def traceNone : RayCast := fun _ _ _ => none

/-- An invisible point light (the skip condition of line 120 fires). -/
def pointLightOff : PointLightC :=
  { position := ⟨5, 5, 5⟩, attenuationRadius := 100, intensity := 1, visible := false }

/-- A visible, positive-intensity point light whose position coincides with the
test sampling point `(0,0,0)`, hence in range of its attenuation radius. -/
def pointLightNear : PointLightC :=
  { position := ⟨0, 0, 0⟩, attenuationRadius := 100, intensity := 1, visible := true }

/-- A second visible, positive-intensity, in-range point light. -/
def pointLightNear2 : PointLightC :=
  { position := ⟨1, 0, 0⟩, attenuationRadius := 100, intensity := 2, visible := true }

/-! Helper lemmas shared by several theorems. -/

/-- The point-light pass can only leave the running total unchanged or assign
the constant 1 to it, so from a total in {0, 1} it produces a total
in {0, 1}. -/
theorem checkPointLightsAux_zero_or_one (buffer : ℝ) (playerPosition : Vec3) :
    ∀ (lights : List PointLightC) (total : ℝ), (total = 0 ∨ total = 1) →
      (checkPointLightsAux buffer playerPosition lights total = 0 ∨
        checkPointLightsAux buffer playerPosition lights total = 1) := by
  intro lights
  induction lights with
  | nil => intro total h; simpa [checkPointLightsAux] using h
  | cons l rest ih =>
    intro total h
    simp only [checkPointLightsAux]
    split_ifs with h1 h2
    · exact h
    · exact ih total h
    · exact ih 1 (Or.inr rfl)

/-- The spot-light pass can only leave the running total unchanged or assign
the constant 1 to it. -/
theorem checkSpotLightsAux_zero_or_one (buffer : ℝ) (playerPosition : Vec3)
    (trace : RayCast) :
    ∀ (lights : List SpotLightC) (total : ℝ), (total = 0 ∨ total = 1) →
      (checkSpotLightsAux buffer playerPosition trace lights total = 0 ∨
        checkSpotLightsAux buffer playerPosition trace lights total = 1) := by
  intro lights
  induction lights with
  | nil => intro total h; simpa [checkSpotLightsAux] using h
  | cons l rest ih =>
    intro total h
    simp only [checkSpotLightsAux]
    split_ifs with h1 h2 h3 h4 h5
    · exact ih total h
    · exact ih total h
    · exact ih total h
    · exact ih total h
    · exact ih total h
    · exact ih 1 (Or.inr rfl)

/-- With a non-null subject handle, `UpdateDetection` completes, touches only
`IlluminanceTotal`, and the resulting total is 0 or 1. -/
theorem updateDetection_player_some (g : Vec3) (trace : RayCast)
    (st : ManagerState) (p : Vec3) (h : st.player = some p) :
    ∃ t : ℝ, updateDetection g trace st = some { st with illuminanceTotal := t } ∧
      (t = 0 ∨ t = 1) := by
  refine ⟨checkSpotLightsAux st.forgivenessBuffer
      (resolveDetectionPoint g p trace) trace st.spotLights
      (checkPointLightsAux st.forgivenessBuffer
        (resolveDetectionPoint g p trace) st.pointLights 0), ?_, ?_⟩
  · simp [updateDetection, h]
  · exact checkSpotLightsAux_zero_or_one _ _ _ _ _
      (checkPointLightsAux_zero_or_one _ _ _ _ (Or.inl rfl))

/-! Claim theorems. -/

/-- C1 (code_bug): evaluation of `CheckPointLights` at the failing input.  The
claim says an invisible light is skipped and a later visible, in-range,
positive-intensity point light still contributes; in the source the
invisibility branch executes `return` (line 122), so the pass started on
`[pointLightOff, pointLightNear]` ends with total 0, although the later light
on its own would contribute (second conjunct). -/
theorem point_pass_early_return_at_invisible_light :
    checkPointLightsAux 0 ⟨0, 0, 0⟩ [pointLightOff, pointLightNear] 0 = 0 ∧
    checkPointLightsAux 0 ⟨0, 0, 0⟩ [pointLightNear] 0 = 1 := by
  constructor
  · simp [checkPointLightsAux, pointLightOff]
  · norm_num [checkPointLightsAux, pointLightNear, distSquared]

/-- C2 (counterexample): two visible, positive-intensity, in-range point
lights each "contribute" within one evaluation, yet the pass ends with
`IlluminanceTotal = 1`, not 2, because inclusion executes the assignment
`IlluminanceTotal = 1.0f` (line 144) instead of adding. -/
theorem point_pass_two_lights_total_one :
    checkPointLightsAux 0 ⟨0, 0, 0⟩ [pointLightNear, pointLightNear2] 0 = 1 ∧
    checkPointLightsAux 0 ⟨0, 0, 0⟩ [pointLightNear, pointLightNear2] 0 ≠ 2 := by
  have h : checkPointLightsAux 0 (⟨0, 0, 0⟩ : Vec3) [pointLightNear, pointLightNear2] 0 = 1 := by
    norm_num [checkPointLightsAux, pointLightNear, pointLightNear2, distSquared]
  refine ⟨h, ?_⟩
  rw [h]
  norm_num

/-- C2 (amended, proved): a point-light pass started from the cleared total 0
ends with `IlluminanceTotal` equal to 0 or 1 — never the number of included
lights — and the total never decreases below its initial 0. -/
theorem point_pass_total_zero_or_one (buffer : ℝ) (playerPosition : Vec3)
    (lights : List PointLightC) :
    (checkPointLightsAux buffer playerPosition lights 0 = 0 ∨
      checkPointLightsAux buffer playerPosition lights 0 = 1) ∧
    (0 : ℝ) ≤ checkPointLightsAux buffer playerPosition lights 0 := by
  have h := checkPointLightsAux_zero_or_one buffer playerPosition lights 0 (Or.inl rfl)
  refine ⟨h, ?_⟩
  rcases h with h | h
  · exact le_of_eq h.symm
  · rw [h]; norm_num

/-- A ray-cast service whose floor probe hits at `(0, 0, -99)`: for a subject
at the origin, the hit lies 99 units below — inside the 100-unit probe but
beyond the 98-unit standing threshold. -/
def trace99 : RayCast := fun _ _ _ => some { location := ⟨0, 0, -99⟩ }

/-- C3 (code_bug): evaluation of the sampling-point resolution at the failing
input.  With the subject at the origin and the floor probe hitting 99 units
below (distance ≥ 98), the source assigns nothing to `DetectionPoint`, so the
sampling point is whatever indeterminate value `g` the uninitialized variable
held — for no choice of `g` other than the accident `g = P - 93.980003*up`
does it equal the fallback the claim requires (second conjunct exhibits the
mismatch at `g = (0,0,0)`). -/
theorem sampling_point_hit_far_indeterminate :
    (∀ g : Vec3, resolveDetectionPoint g ⟨0, 0, 0⟩ trace99 = g) ∧
    resolveDetectionPoint ⟨0, 0, 0⟩ ⟨0, 0, 0⟩ trace99 ≠
      (⟨0, 0, 0⟩ : Vec3) + (93.980003 : ℝ) • downVector := by
  have hdist : distance (⟨0, 0, -99⟩ : Vec3) (⟨0, 0, 0⟩ : Vec3) = 99 := by
    have h1 : dot ((⟨0, 0, 0⟩ : Vec3) - ⟨0, 0, -99⟩) ((⟨0, 0, 0⟩ : Vec3) - ⟨0, 0, -99⟩) =
        (99 : ℝ) ^ 2 := by
      norm_num [dot]
    rw [distance, size, h1, Real.sqrt_sq (by norm_num : (0 : ℝ) ≤ 99)]
  have hmain : ∀ g : Vec3, resolveDetectionPoint g ⟨0, 0, 0⟩ trace99 = g := by
    intro g
    simp only [resolveDetectionPoint, trace99]
    rw [if_neg]
    rw [hdist]
    norm_num
  refine ⟨hmain, ?_⟩
  rw [hmain ⟨0, 0, 0⟩]
  intro hbad
  have hz := congrArg Vec3.z hbad
  simp [downVector] at hz
  exact absurd hz (by norm_num)

/-- A visible spot light with its apex at the origin, used by the apex
counterexample: forward `(0,0,-1)`, outer half-cone 30°, radius 500,
intensity 10. -/
def spotLightApex0 : SpotLightC :=
  { position := ⟨0, 0, 0⟩, forward := ⟨0, 0, -1⟩, outerConeAngle := 30,
    attenuationRadius := 500, intensity := 10, visible := true }

/-- C4 (counterexample): a visible spot light of intensity 10, outer half-cone
30°, attenuation radius 500, with the sampling point exactly at its apex and
no occluder, is NOT included: the displacement is the zero vector, its safe
normalization is the zero vector, the computed light-to-subject bearing is
90° > 30°, and the light is skipped, leaving the total at 0 instead of the
claimed inclusion. -/
theorem spot_apex_counterexample :
    checkSpotLightsAux 0 ⟨0, 0, 0⟩ traceNone [spotLightApex0] 0 = 0 ∧
    checkSpotLightsAux 0 ⟨0, 0, 0⟩ traceNone [spotLightApex0] 0 ≠ 1 := by
  have hninety : Real.pi / 2 * (180 / Real.pi) = 90 := by
    field_simp
    ring
  have h : checkSpotLightsAux 0 (⟨0, 0, 0⟩ : Vec3) traceNone [spotLightApex0] 0 = 0 := by
    simp only [checkSpotLightsAux, spotLightApex0]
    norm_num [dot, size, distSquared, safeNormal, Real.arccos_zero, Real.cos_pi_div_two,
      hninety]
  refine ⟨h, ?_⟩
  rw [h]
  norm_num

/-- C4 (amended, proved): whenever the sampling point coincides with a spot
light's apex and the light's outer half-cone angle is below 90°, the
spot-light evaluator skips that light (whatever its visibility, intensity,
radius, buffer or the trace outcome): the safe-normalized zero displacement
makes the computed bearing exactly 90°, which exceeds the cone angle. -/
theorem spot_apex_excluded (buffer : ℝ) (playerPosition : Vec3) (trace : RayCast)
    (l : SpotLightC) (rest : List SpotLightC) (total : ℝ)
    (hAp : playerPosition = l.position) (hAngle : l.outerConeAngle < 90) :
    checkSpotLightsAux buffer playerPosition trace (l :: rest) total =
      checkSpotLightsAux buffer playerPosition trace rest total := by
  subst hAp
  have hzero : l.position - l.position = (⟨0, 0, 0⟩ : Vec3) := Vec3.sub_self l.position
  have hnorm : safeNormal (⟨0, 0, 0⟩ : Vec3) = ⟨0, 0, 0⟩ := by
    apply Vec3.ext_comp <;> simp [safeNormal]
  have hdot : dot l.forward (⟨0, 0, 0⟩ : Vec3) = 0 := by simp [dot]
  have hninety : Real.pi / 2 * (180 / Real.pi) = 90 := by
    field_simp
    ring
  have hbeta : Real.arccos (dot l.forward (safeNormal (l.position - l.position))) *
      (180 / Real.pi) = 90 := by
    rw [hzero, hnorm, hdot, Real.arccos_zero, hninety]
  simp only [checkSpotLightsAux]
  split_ifs with h1 h2 h3 h4 h5
  · rfl
  · rfl
  · rfl
  · rfl
  · rfl
  · exact absurd (hbeta ▸ hAngle : Real.arccos (dot l.forward
      (safeNormal (l.position - l.position))) * (180 / Real.pi) > l.outerConeAngle) h3

/-- A visible 45° spot light used by the apex witness. -/
def spotLightApexW : SpotLightC :=
  { position := ⟨1, 2, 3⟩, forward := ⟨1, 0, 0⟩, outerConeAngle := 45,
    attenuationRadius := 500, intensity := 10, visible := true }

/-- Witness for the amended C4 theorem at a concrete apex configuration. -/
theorem spot_apex_excluded_witness :
    checkSpotLightsAux 0 ⟨1, 2, 3⟩ traceNone [spotLightApexW] 5 =
      checkSpotLightsAux 0 ⟨1, 2, 3⟩ traceNone [] 5 :=
  spot_apex_excluded 0 ⟨1, 2, 3⟩ traceNone spotLightApexW [] 5 rfl
    (by norm_num [spotLightApexW])

/-- C5 (confirmed): for a visible rect light whose test point passes the
attenuation-radius-plus-buffer check and whose occlusion ray is clear, the
evaluator adds the light's contribution if and only if the signed distances to
all four inward bounding planes (top, right, bottom, left, freshly recomputed
as the source always does) are strictly positive; otherwise — in particular
when the point lies exactly on one of the planes, making that signed distance
0 — the total is left unchanged. -/
theorem rect_inclusion_iff_planes (buffer : ℝ) (playerPosition : Vec3)
    (trace : RayCast) (l : RectLightC) (rest : List RectLightC) (total : ℝ)
    (hvis : l.visible = true)
    (hrange : ¬(distSquared l.position playerPosition >
      l.attenuationRadius * l.attenuationRadius + buffer))
    (hclear : trace l.position playerPosition Channel.gameTrace5 = none) :
    (rectAllFourPos l playerPosition →
      checkRectLightsAux buffer playerPosition trace (l :: rest) total =
        checkRectLightsAux buffer playerPosition trace rest
          (total + l.intensity /
            (2 * Real.pi * (Real.sqrt (distSquared l.position playerPosition) * 0.01)))) ∧
    (¬rectAllFourPos l playerPosition →
      checkRectLightsAux buffer playerPosition trace (l :: rest) total =
        checkRectLightsAux buffer playerPosition trace rest total) := by
  have h1 : ¬(l.visible = false) := by simp [hvis]
  constructor <;> intro h4 <;>
    simp only [checkRectLightsAux, hclear, Option.isSome_none, Bool.false_eq_true,
      if_false] <;>
    rw [if_neg h1, if_neg hrange]
  · rw [if_pos h4]
  · rw [if_neg h4]

/-- A visible rect light used by the C5 witness: sited at the origin with the
standard basis, 200×100 source, 300-unit barn doors at 20°, attenuation radius
1000. -/
def rectLightW : RectLightC :=
  { position := ⟨0, 0, 0⟩, forward := ⟨1, 0, 0⟩, right := ⟨0, 1, 0⟩, up := ⟨0, 0, 1⟩,
    sourceWidth := 200, sourceHeight := 100, barnDoorLength := 300, barnDoorAngle := 20,
    attenuationRadius := 1000, intensity := 100, visible := true }

/-- Witness for C5 at a concrete visible, in-range, unoccluded rect light. -/
theorem rect_inclusion_iff_planes_witness :
    (rectAllFourPos rectLightW ⟨10, 0, 0⟩ →
      checkRectLightsAux 0 ⟨10, 0, 0⟩ traceNone [rectLightW] 0 =
        checkRectLightsAux 0 ⟨10, 0, 0⟩ traceNone []
          (0 + rectLightW.intensity /
            (2 * Real.pi * (Real.sqrt (distSquared rectLightW.position ⟨10, 0, 0⟩) * 0.01)))) ∧
    (¬rectAllFourPos rectLightW ⟨10, 0, 0⟩ →
      checkRectLightsAux 0 ⟨10, 0, 0⟩ traceNone [rectLightW] 0 =
        checkRectLightsAux 0 ⟨10, 0, 0⟩ traceNone [] 0) :=
  rect_inclusion_iff_planes 0 ⟨10, 0, 0⟩ traceNone rectLightW [] 0 rfl
    (by norm_num [rectLightW, distSquared]) rfl

/-- C6 (confirmed): for a present, visible directional light whose probe ray —
cast from 5000 units against the light's forward direction back to the subject
on the visibility channel — is unblocked, the evaluator adds exactly the
light's intensity to the running total, and the same evaluation with the
intensity doubled adds exactly twice as much. -/
theorem directional_adds_exact_intensity (l : DirectionalLightC)
    (playerPosition : Vec3) (trace : RayCast) (total : ℝ)
    (hvis : l.visible = true)
    (hclear : trace (playerPosition - (5000 : ℝ) • l.forward) playerPosition
      Channel.visibility = none) :
    checkDirectionalLight (some l) playerPosition trace total = total + l.intensity ∧
    checkDirectionalLight
        (some { forward := l.forward, intensity := 2 * l.intensity, visible := l.visible })
        playerPosition trace total = total + 2 * l.intensity := by
  constructor <;> simp [checkDirectionalLight, hvis, hclear]

/-- The directional light used by the C6 witness: forward `(0,0,-1)`,
intensity 3, visible. -/
def dirLightW : DirectionalLightC := { forward := ⟨0, 0, -1⟩, intensity := 3, visible := true }

/-- Witness for C6 at a concrete unoccluded directional light. -/
theorem directional_adds_exact_intensity_witness :
    checkDirectionalLight (some dirLightW) ⟨0, 0, 0⟩ traceNone 0 = 0 + dirLightW.intensity ∧
    checkDirectionalLight
        (some { forward := dirLightW.forward, intensity := 2 * dirLightW.intensity, visible := dirLightW.visible })
        ⟨0, 0, 0⟩ traceNone 0 = 0 + 2 * dirLightW.intensity :=
  directional_adds_exact_intensity dirLightW ⟨0, 0, 0⟩ traceNone 0 rfl rfl

/-- C7 (confirmed): with a non-null subject, every frame decrements the
accumulator by the delta time, invokes an evaluation exactly when the
decremented accumulator is ≤ 0 (resetting it to `1 / UpdateFrequency`
immediately afterwards), performs at most one evaluation, and on a non-firing
frame only the decrement happens. -/
theorem tick_fires_iff_timer_elapsed (g : Vec3) (trace : RayCast) (dt : ℝ)
    (st : ManagerState) (p : Vec3) (h : st.player = some p) :
    ∃ (st' : ManagerState) (n : ℕ), tick g trace dt st = some (st', n) ∧ n ≤ 1 ∧
      ((n = 1) ↔ st.updateTimer - dt ≤ 0) ∧
      (st.updateTimer - dt ≤ 0 → st'.updateTimer = 1 / st.updateFrequency) ∧
      (¬(st.updateTimer - dt ≤ 0) →
        st' = { st with updateTimer := st.updateTimer - dt } ∧ n = 0) := by
  by_cases hc : st.updateTimer - dt ≤ 0
  · obtain ⟨t, hEq, _⟩ := updateDetection_player_some g trace
      { st with updateTimer := st.updateTimer - dt } p h
    refine ⟨{ st with updateTimer := 1 / st.updateFrequency, illuminanceTotal := t }, 1,
      ?_, le_refl 1, iff_of_true rfl hc, fun _ => rfl, fun hn => absurd hc hn⟩
    simp only [tick]
    rw [if_pos hc, hEq]
  · refine ⟨{ st with updateTimer := st.updateTimer - dt }, 0, ?_, by norm_num,
      iff_of_false (by norm_num) hc, fun hcc => absurd hcc hc, fun _ => ⟨rfl, rfl⟩⟩
    simp only [tick]
    rw [if_neg hc]

/-- The manager state used by the tick witness: non-null subject, empty
catalogs, 50 Hz update frequency, 0.02 s left on the timer. -/
def stTick : ManagerState :=
  { player := some ⟨0, 0, 0⟩, pointLights := [], spotLights := [],
    illuminanceTotal := 0, updateFrequency := 50, updateTimer := 0.02,
    forgivenessBuffer := 0 }

/-- Witness for C7 at a concrete frame of 0.05 s delta time. -/
theorem tick_fires_iff_timer_elapsed_witness :
    ∃ (st' : ManagerState) (n : ℕ), tick ⟨0, 0, 0⟩ traceNone 0.05 stTick = some (st', n) ∧
      n ≤ 1 ∧ ((n = 1) ↔ stTick.updateTimer - 0.05 ≤ 0) ∧
      (stTick.updateTimer - 0.05 ≤ 0 → st'.updateTimer = 1 / stTick.updateFrequency) ∧
      (¬(stTick.updateTimer - 0.05 ≤ 0) →
        st' = { stTick with updateTimer := stTick.updateTimer - 0.05 } ∧ n = 0) :=
  tick_fires_iff_timer_elapsed ⟨0, 0, 0⟩ traceNone 0.05 stTick ⟨0, 0, 0⟩ rfl

/-- C8 (counterexample): initialization with `UpdateFrequency = 0` does not
report any fault and does not refuse to run — `BeginPlay` proceeds to compute
the tick period `1 / UpdateFrequency` and yields a fully-built state (the
source, line 61, divides unconditionally; the embedded `beginPlay` has no
failure path because the source has none). -/
theorem beginPlay_zero_frequency_proceeds :
    beginPlay (some ⟨0, 0, 0⟩) [] 0 5 =
      { player := some ⟨0, 0, 0⟩, pointLights := [], spotLights := [],
        illuminanceTotal := 0, updateFrequency := 0, updateTimer := 1 / (0 : ℝ),
        forgivenessBuffer := 5 } := rfl

/-- C8 (amended, proved): `BeginPlay` performs no `UpdateFrequency`
validation: even when `UpdateFrequency ≤ 0` it reports no fault, builds the
catalogs and computes `UpdateTimer = 1 / UpdateFrequency` exactly as in the
well-configured case. -/
theorem beginPlay_no_frequency_validation (player : Option Vec3)
    (actors : List SceneActor) (updateFrequency forgivenessBuffer : ℝ)
    (_h : updateFrequency ≤ 0) :
    beginPlay player actors updateFrequency forgivenessBuffer =
      { player := player, pointLights := (classifyActors actors).1,
        spotLights := (classifyActors actors).2, illuminanceTotal := 0,
        updateFrequency := updateFrequency, updateTimer := 1 / updateFrequency,
        forgivenessBuffer := forgivenessBuffer } := rfl

/-- Witness for the amended C8 theorem at frequency 0. -/
theorem beginPlay_no_frequency_validation_witness :
    beginPlay none [] 0 0 =
      { player := none, pointLights := (classifyActors []).1,
        spotLights := (classifyActors []).2, illuminanceTotal := 0,
        updateFrequency := 0, updateTimer := 1 / (0 : ℝ), forgivenessBuffer := 0 } :=
  beginPlay_no_frequency_validation none [] 0 0 (le_refl 0)

/-- The state used by the C9 counterexample: null subject handle and a
previous `IlluminanceTotal` of 7. -/
def stNullPlayer : ManagerState :=
  { player := none, pointLights := [], spotLights := [], illuminanceTotal := 7,
    updateFrequency := 50, updateTimer := 0, forgivenessBuffer := 0 }

/-- C9 (counterexample): with a null subject handle the evaluation is not
skipped gracefully — `UpdateDetection` dereferences the null `Player` handle
at line 75 (after having already zeroed `IlluminanceTotal` at line 73), so the
tick crashes (`none`): no post-state exists in which `IlluminanceTotal`
retains its previous value 7, contrary to the claim. -/
theorem updateDetection_null_player_crashes :
    updateDetection ⟨0, 0, 0⟩ traceNone stNullPlayer = none := rfl

/-- C9 (amended, proved): whenever the subject handle is null at tick time,
`UpdateDetection` dereferences it unguarded and the evaluation aborts — the
fault escapes the detector instead of the evaluation being skipped with
`IlluminanceTotal` preserved. -/
theorem updateDetection_null_player_aborts (g : Vec3) (trace : RayCast)
    (st : ManagerState) (h : st.player = none) :
    updateDetection g trace st = none := by
  simp [updateDetection, h]

/-- A second null-subject state (previous total 3) for the C9 witness. -/
def stNullPlayer3 : ManagerState :=
  { player := none, pointLights := [], spotLights := [], illuminanceTotal := 3,
    updateFrequency := 50, updateTimer := 1, forgivenessBuffer := 0 }

/-- Witness for the amended C9 theorem at a concrete null-subject state. -/
theorem updateDetection_null_player_aborts_witness :
    updateDetection ⟨1, 1, 1⟩ traceNone stNullPlayer3 = none :=
  updateDetection_null_player_aborts ⟨1, 1, 1⟩ traceNone stNullPlayer3 rfl

/-- C10 (confirmed): every evaluation the per-tick orchestrator actually
performs (i.e. with a non-null subject) ends with `IlluminanceTotal` equal to
0 or exactly 1, for every catalog of point and spot lights, every trace
outcome and every indeterminate sampling fallback: included point and spot
lights assign the constant 1 instead of accumulating, and the orchestrator
never invokes the rect or directional evaluators (lines 100-101 are commented
out). -/
theorem evaluation_total_zero_or_one (g : Vec3) (trace : RayCast)
    (st : ManagerState) (p : Vec3) (h : st.player = some p) :
    ∃ st' : ManagerState, updateDetection g trace st = some st' ∧
      (st'.illuminanceTotal = 0 ∨ st'.illuminanceTotal = 1) := by
  obtain ⟨t, hEq, ht⟩ := updateDetection_player_some g trace st p h
  exact ⟨_, hEq, by simpa using ht⟩

/-- The manager state used by the C10 witness: non-null subject, one visible
in-range point light. -/
def stEval : ManagerState :=
  { player := some ⟨0, 0, 0⟩, pointLights := [pointLightNear], spotLights := [],
    illuminanceTotal := 0, updateFrequency := 50, updateTimer := 0.02,
    forgivenessBuffer := 0 }

/-- Witness for C10 at a concrete evaluation. -/
theorem evaluation_total_zero_or_one_witness :
    ∃ st' : ManagerState, updateDetection ⟨0, 0, 0⟩ traceNone stEval = some st' ∧
      (st'.illuminanceTotal = 0 ∨ st'.illuminanceTotal = 1) :=
  evaluation_total_zero_or_one ⟨0, 0, 0⟩ traceNone stEval ⟨0, 0, 0⟩ rfl

end
